import Mathlib

/-!
Shallow embedding of the puppetbeacon library (src/puppetbeacon/utils.py and
src/puppetbeacon/monitors.py).

Modelling conventions, stated once:

* Python values reachable in this library (YAML documents, lookup results,
  derived attributes) are modelled by the inductive `PyVal`.  YAML mappings
  become association lists with string keys (every key used by the library is
  a string), YAML sequences become lists, numbers become `Int` or exact
  rationals (`pyFloat` carries a rational: the floating-point rounding of
  CPython floats plays no role in any claim considered here).
* Python exceptions relevant to the code paths are the constructors of
  `PyErr`.  A function that can raise returns `Except PyErr _`; a function
  whose body catches every exception it can raise returns a plain value.
* Wall-clock time is an explicit rational parameter `now` (seconds since the
  epoch), standing for `datetime.now()` taken once per call; file contents
  and stat results are explicit parameters standing for the filesystem at
  call time.
* `int(x)` applied to a float truncates toward zero; this is `trunc0`.
* Mutable attributes of `AgentState` / `PuppetAgent` live in the record
  `AgentRec`; methods take the record and return the updated record, with
  updates that happened before an exception preserved, as in Python.  The
  write-only private attributes `_disabled` and `_run_duration`, which no
  code reads, are omitted.
-/

/-- A Python value as used by this library. -/
inductive PyVal where
  | none
  | pyBool (b : Bool)
  | pyInt (n : Int)
  | pyFloat (q : ℚ)
  | pyStr (s : String)
  | pyList (xs : List PyVal)
  | pyDict (entries : List (String × PyVal))

/-- The Python exception classes that the embedded code can raise or catch. -/
inductive PyErr where
  | keyError
  | typeError
  | valueError
  | yamlError
  deriving DecidableEq, Repr

/-- First binding of a key in an association list (Python dict lookup). -/
def lookupKey : List (String × PyVal) → String → Option PyVal
  | [], _ => Option.none
  | (k, v) :: rest, key => if k = key then some v else lookupKey rest key

/-- Python subscription `data[key]` with a string key: a dict either yields
the bound value or raises KeyError; any non-dict value raises TypeError
(strings, lists, ints, bools, floats and None are not subscriptable by a
string key). -/
def getItem : PyVal → String → Except PyErr PyVal
  | PyVal.pyDict entries, key =>
    match lookupKey entries key with
    | some v => Except.ok v
    | Option.none => Except.error PyErr.keyError
  | _, _ => Except.error PyErr.typeError

/-- `safe_get(data, *keys)` from utils.py: iterates `data = data[key]` inside
a try block that catches only KeyError (returning Python None); every other
exception, in particular the TypeError from subscripting a non-dict,
propagates. -/
def safe_get : PyVal → List String → Except PyErr PyVal
  | data, [] => Except.ok data
  | data, key :: keys =>
    match getItem data key with
    | Except.ok v => safe_get v keys
    | Except.error PyErr.keyError => Except.ok PyVal.none
    | Except.error e => Except.error e

/-- Python truthiness of a `PyVal`: None, False, 0, 0.0, the empty string,
the empty list and the empty dict are falsy. -/
def truthy : PyVal → Bool
  | PyVal.none => false
  | PyVal.pyBool b => b
  | PyVal.pyInt n => n != 0
  | PyVal.pyFloat q => q != 0
  | PyVal.pyStr s => s != ""
  | PyVal.pyList xs => !xs.isEmpty
  | PyVal.pyDict entries => !entries.isEmpty

/-- Is this value a Python dict (the only mapping shape in this model)? -/
def PyVal.isDict : PyVal → Bool
  | PyVal.pyDict _ => true
  | _ => false

/-- Truncation toward zero of a rational, as Python `int(float)` does:
floor for nonnegative arguments, ceiling for negative ones. -/
def trunc0 (q : ℚ) : Int :=
  if 0 ≤ q then ⌊q⌋ else ⌈q⌉

/-- `get_timedelta(timestamp)` from utils.py.  `datetime.fromtimestamp`
accepts ints, bools (int subclass) and floats and raises TypeError on None,
strings, lists and dicts; the try block catches exactly that TypeError and
returns None.  On success the result is
`int((datetime.now() - datetime.fromtimestamp(timestamp)).total_seconds())`,
i.e. `now - timestamp` truncated toward zero.  Timestamps are modelled as
unbounded numbers, so the platform overflow errors of `fromtimestamp` are
out of scope. -/
def get_timedelta (now : ℚ) : PyVal → PyVal
  | PyVal.pyInt n => PyVal.pyInt (trunc0 (now - (n : ℚ)))
  | PyVal.pyBool b => PyVal.pyInt (trunc0 (now - (if b then 1 else 0)))
  | PyVal.pyFloat q => PyVal.pyInt (trunc0 (now - q))
  | _ => PyVal.none

/-- Python builtin `int(x)` on the values of this model: ints pass through,
bools become 0 or 1, floats truncate toward zero, strings parse as an
optionally signed decimal integer after stripping whitespace (ValueError on
failure), and None, lists and dicts raise TypeError. -/
def py_int : PyVal → Except PyErr Int
  | PyVal.pyInt n => Except.ok n
  | PyVal.pyBool b => Except.ok (if b then 1 else 0)
  | PyVal.pyFloat q => Except.ok (trunc0 q)
  | PyVal.pyStr s =>
    match s.trim.toInt? with
    | some n => Except.ok n
    | Option.none => Except.error PyErr.valueError
  | _ => Except.error PyErr.typeError

/-- The state of a YAML file on disk at call time, as seen through
`open` + `yaml.safe_load`: the open can raise an IOError (file absent) or
another I/O error, the parse can raise a yaml.YAMLError, or the parse
succeeds with a document (None for an empty or all-comments file). -/
inductive FileState where
  | absent
  | ioError
  | yamlError
  | parsed (doc : PyVal)

/-- The mutable attributes of an `AgentState` / `PuppetAgent` instance. -/
structure AgentRec where
  disabled_message : PyVal
  last_run : PyVal
  last_run_duration : PyVal
  events_failed : PyVal
  resources_failed : PyVal
  resources_failed_restart : PyVal
  puppet_version : PyVal

/-- Attribute values set by the initializers before any read: all None. -/
def initialAgent : AgentRec :=
  { disabled_message := PyVal.none
    last_run := PyVal.none
    last_run_duration := PyVal.none
    events_failed := PyVal.none
    resources_failed := PyVal.none
    resources_failed_restart := PyVal.none
    puppet_version := PyVal.none }

/-- The `AgentState.disabled` property (monitors.py lines 70-89).  The try
block covers the open and the body of the with-statement and catches only
EnvironmentError (= OSError): an open failure falls through to `return
False` with the state untouched.  Inside, `yaml.safe_load` can raise a
yaml.YAMLError, and `safe_get(doc, "disabled_message")` can raise a
TypeError when the parsed document is not a dict (including the None parse
of an empty lock file); neither is an EnvironmentError, so both escape the
property with the state untouched.  On success the message is stored and
True is returned. -/
def disabled (lock : FileState) (s : AgentRec) : Except PyErr Bool × AgentRec :=
  match lock with
  | FileState.absent => (Except.ok false, s)
  | FileState.ioError => (Except.ok false, s)
  | FileState.yamlError => (Except.error PyErr.yamlError, s)
  | FileState.parsed doc =>
    match safe_get doc ["disabled_message"] with
    | Except.ok msg => (Except.ok true, { s with disabled_message := msg })
    | Except.error e => (Except.error e, s)

/-- `AgentState.get_run_summary` (monitors.py lines 91-120).  `run_summary`
starts as None; the try block catches IOError (which subsumes the
file-absent and other I/O cases) and yaml.YAMLError, leaving `run_summary`
as None; on success it holds the parsed document.  The method returns
`run_summary if run_summary else {}`, i.e. the empty dict whenever
`run_summary` is falsy. -/
def get_run_summary (fs : FileState) : PyVal :=
  let run_summary : PyVal :=
    match fs with
    | FileState.absent => PyVal.none
    | FileState.ioError => PyVal.none
    | FileState.yamlError => PyVal.none
    | FileState.parsed doc => doc
  if truthy run_summary then run_summary else PyVal.pyDict []

/-- `PuppetAgent.run_duration` (monitors.py lines 174-197).  `mtime` is the
result of `os.path.getmtime(self.run_lock)`: `some t` when the stat
succeeds with modification time `t`, `none` when it raises OSError (file
absent), which the property catches, leaving the local `run_duration` as
None. -/
def run_duration (now : ℚ) (mtime : Option ℚ) : PyVal :=
  match mtime with
  | Option.none => PyVal.none
  | some t => get_timedelta now (PyVal.pyFloat t)

/-- `PuppetAgent.get_last_run` (monitors.py lines 199-230), with the state
of the summary file and the call-time clock explicit.  Returns False
immediately on a falsy summary; otherwise performs the six extractions in
source order.  Each `safe_get` can raise a TypeError (non-dict
intermediate), and `int(...)` on the time.total value can raise; an
exception propagates with the attribute assignments made so far kept, as in
Python. -/
def get_last_run (now : ℚ) (fs : FileState) (s : AgentRec) :
    Except PyErr Bool × AgentRec :=
  let run_summary := get_run_summary fs
  if truthy run_summary = false then
    (Except.ok false, s)
  else
    match safe_get run_summary ["time", "last_run"] with
    | Except.error e => (Except.error e, s)
    | Except.ok tlr =>
      let s1 := { s with last_run := get_timedelta now tlr }
      match safe_get run_summary ["time", "total"] with
      | Except.error e => (Except.error e, s1)
      | Except.ok tt =>
        match py_int tt with
        | Except.error e => (Except.error e, s1)
        | Except.ok n =>
          let s2 := { s1 with last_run_duration := PyVal.pyInt n }
          match safe_get run_summary ["events", "failure"] with
          | Except.error e => (Except.error e, s2)
          | Except.ok ef =>
            let s3 := { s2 with events_failed := ef }
            match safe_get run_summary ["resources", "failed"] with
            | Except.error e => (Except.error e, s3)
            | Except.ok rf =>
              let s4 := { s3 with resources_failed := rf }
              match safe_get run_summary ["resources", "failed_to_restart"] with
              | Except.error e => (Except.error e, s4)
              | Except.ok rfr =>
                let s5 := { s4 with resources_failed_restart := rfr }
                match safe_get run_summary ["version", "puppet"] with
                | Except.error e => (Except.error e, s5)
                | Except.ok pv =>
                  (Except.ok true, { s5 with puppet_version := pv })

/-- `PuppetAgent.__init__` (monitors.py lines 161-172): sets every derived
attribute to None and then immediately calls `get_last_run` once. -/
def mk_puppet_agent (now : ℚ) (fs : FileState) : Except PyErr Bool × AgentRec :=
  get_last_run now fs initialAgent

example : safe_get (PyVal.pyDict [("a", PyVal.pyDict [("b", PyVal.pyInt 5)])])
    ["a", "b"] = Except.ok (PyVal.pyInt 5) := rfl

example : safe_get (PyVal.pyDict [("a", PyVal.pyDict [])]) ["a", "b"] =
    Except.ok PyVal.none := rfl

example : safe_get (PyVal.pyDict []) ["a", "b"] = Except.ok PyVal.none := rfl

example : safe_get (PyVal.pyDict [("a", PyVal.pyInt 5)]) ["a", "b"] =
    Except.error PyErr.typeError := rfl

/-! ### Shared helper lemmas -/

theorem trunc0_eq_floor {q : ℚ} (h : 0 ≤ q) : trunc0 q = ⌊q⌋ := by
  simp [trunc0, h]

theorem trunc0_eq_ceil {q : ℚ} (h : q < 0) : trunc0 q = ⌈q⌉ := by
  simp [trunc0, not_le.mpr h]

/-! ### Claims -/

/-- Claim C2, counterexample.  The claim states that safe_get returns None
rather than raising whenever the current intermediate value is not an
indexable mapping; but on the document containing key a bound to the
integer 5, looking up the path a, b raises a TypeError (only KeyError is
caught), so the result is not the Python None the claim demands. -/
theorem safe_get_nonmapping_counterexample :
    safe_get (PyVal.pyDict [("a", PyVal.pyInt 5)]) ["a", "b"] =
      Except.error PyErr.typeError ∧
    (Except.error PyErr.typeError : Except PyErr PyVal) ≠ Except.ok PyVal.none :=
  ⟨rfl, fun h => Except.noConfusion h⟩

/-- Claim C2, amended.  safe_get walks the keys in the order given and
returns None whenever a key is absent from the current mapping; but when
the current intermediate value is not a mapping it raises a TypeError
instead of returning None.  The three concrete scenarios of the claim all
hold. -/
theorem safe_get_amended :
    (∀ entries key keys, lookupKey entries key = Option.none →
      safe_get (PyVal.pyDict entries) (key :: keys) = Except.ok PyVal.none) ∧
    (∀ v key keys, v.isDict = false →
      safe_get v (key :: keys) = Except.error PyErr.typeError) ∧
    safe_get (PyVal.pyDict [("a", PyVal.pyDict [("b", PyVal.pyInt 5)])])
      ["a", "b"] = Except.ok (PyVal.pyInt 5) ∧
    safe_get (PyVal.pyDict [("a", PyVal.pyDict [])]) ["a", "b"] =
      Except.ok PyVal.none ∧
    safe_get (PyVal.pyDict []) ["a", "b"] = Except.ok PyVal.none := by
  refine ⟨?_, ?_, rfl, rfl, rfl⟩
  · intro entries key keys h
    simp [safe_get, getItem, h]
  · intro v key keys h
    cases v <;> simp_all [safe_get, getItem, PyVal.isDict]

/-- Claim C2, witness for the amended theorem at concrete inputs. -/
theorem safe_get_amended_witness :
    lookupKey [("x", PyVal.pyInt 1)] "a" = Option.none ∧
    safe_get (PyVal.pyDict [("x", PyVal.pyInt 1)]) ["a", "b"] =
      Except.ok PyVal.none ∧
    PyVal.isDict (PyVal.pyInt 7) = false ∧
    safe_get (PyVal.pyInt 7) ["a"] = Except.error PyErr.typeError :=
  ⟨rfl, safe_get_amended.1 [("x", PyVal.pyInt 1)] "a" ["b"] rfl, rfl,
    safe_get_amended.2.1 (PyVal.pyInt 7) "a" [] rfl⟩

/-- Claim C4, counterexample.  The claim states that on a successful parse
get_run_summary returns the parsed document; but a summary file that
parses successfully to None (an empty or all-comments file) yields the
empty dict, which is not the parsed document None. -/
theorem get_run_summary_none_parse_counterexample :
    get_run_summary (FileState.parsed PyVal.none) = PyVal.pyDict [] ∧
    (PyVal.pyDict [] : PyVal) ≠ PyVal.none :=
  ⟨rfl, fun h => PyVal.noConfusion h⟩

/-- Claim C4, amended.  get_run_summary never raises (its body catches the
IOError of the open and the YAMLError of the parse, the only exceptions it
can produce, which is why it is embedded with a plain return type): an
absent file, an I/O error and a YAML syntax error all yield the empty
mapping, and a successful parse yields the parsed document when that
document is truthy and the empty mapping when the parse result is falsy. -/
theorem get_run_summary_amended :
    get_run_summary FileState.absent = PyVal.pyDict [] ∧
    get_run_summary FileState.ioError = PyVal.pyDict [] ∧
    get_run_summary FileState.yamlError = PyVal.pyDict [] ∧
    ∀ doc, get_run_summary (FileState.parsed doc) =
      (if truthy doc then doc else PyVal.pyDict []) :=
  ⟨rfl, rfl, rfl, fun _ => rfl⟩

/-- Claim C8, confirmed.  Reading run_duration never raises (the only
exception its body can produce, the OSError of the stat, is caught, which
is why it is embedded with a plain return type): when the stat of the run
lock succeeds with modification time t it returns the elapsed whole
seconds between now and t, and when the stat fails because the lock is
absent it returns None. -/
theorem run_duration_never_raises (now : ℚ) :
    run_duration now Option.none = PyVal.none ∧
    ∀ t : ℚ, run_duration now (some t) = PyVal.pyInt (trunc0 (now - t)) :=
  ⟨rfl, fun _ => rfl⟩

/-- Claim C9, confirmed.  get_run_summary normalizes every falsy parse
result, and the absent-file case, to the empty mapping; but a successful
parse to a truthy top-level value that is not a mapping is returned
unchanged. -/
theorem get_run_summary_falsy_truthy :
    get_run_summary FileState.absent = PyVal.pyDict [] ∧
    (∀ doc, truthy doc = false →
      get_run_summary (FileState.parsed doc) = PyVal.pyDict []) ∧
    (∀ doc, truthy doc = true → doc.isDict = false →
      get_run_summary (FileState.parsed doc) = doc) := by
  refine ⟨rfl, ?_, ?_⟩
  · intro doc h
    simp [get_run_summary, h]
  · intro doc h _
    simp [get_run_summary, h]

/-- Claim C9, witness: an empty parse normalizes to the empty mapping and a
truthy scalar string is returned unchanged. -/
theorem get_run_summary_falsy_truthy_witness :
    (truthy PyVal.none = false ∧
      get_run_summary (FileState.parsed PyVal.none) = PyVal.pyDict []) ∧
    (truthy (PyVal.pyStr "x") = true ∧ PyVal.isDict (PyVal.pyStr "x") = false ∧
      get_run_summary (FileState.parsed (PyVal.pyStr "x")) = PyVal.pyStr "x") :=
  ⟨⟨rfl, get_run_summary_falsy_truthy.2.1 PyVal.none rfl⟩,
    ⟨rfl, rfl, get_run_summary_falsy_truthy.2.2 (PyVal.pyStr "x") rfl rfl⟩⟩

/-- Claim C3, counterexample.  The claim states that for a disabled lock
whose contents are unparseable YAML, the disabled property catches the
YAML-layer exception and returns true with no message; but the try block
catches only EnvironmentError, so the YAMLError escapes and the property
does not return true. -/
theorem disabled_yaml_error_counterexample :
    disabled FileState.yamlError initialAgent =
      (Except.error PyErr.yamlError, initialAgent) ∧
    (Except.error PyErr.yamlError : Except PyErr Bool) ≠ Except.ok true :=
  ⟨rfl, fun h => Except.noConfusion h⟩

/-- Claim C3, amended.  For a disabled lock that exists but whose contents
are unparseable YAML, the YAML-layer exception is not caught at this
boundary: the YAMLError propagates to the caller (the property yields
neither true nor false) and disabled_message is left unmodified. -/
theorem disabled_yaml_error_escapes (s : AgentRec) :
    disabled FileState.yamlError s = (Except.error PyErr.yamlError, s) :=
  rfl

/-- Claim C5, confirmed.  Whenever get_run_summary yields the empty
mapping, get_last_run returns false and leaves every derived field exactly
as it was; and a freshly constructed PuppetAgent whose summary file is
absent keeps all derived fields unset (None). -/
theorem get_last_run_empty_frame :
    (∀ (now : ℚ) (fs : FileState) (s : AgentRec),
      get_run_summary fs = PyVal.pyDict [] →
      get_last_run now fs s = (Except.ok false, s)) ∧
    (∀ now : ℚ, mk_puppet_agent now FileState.absent =
      (Except.ok false, initialAgent)) := by
  refine ⟨?_, fun _ => rfl⟩
  intro now fs s h
  simp [get_last_run, h, truthy]

/-- Claim C5, witness: a summary file with a YAML syntax error yields the
empty mapping, and get_last_run on it returns false leaving a previously
populated field untouched. -/
theorem get_last_run_empty_frame_witness :
    get_run_summary FileState.yamlError = PyVal.pyDict [] ∧
    get_last_run 0 FileState.yamlError
        { initialAgent with last_run := PyVal.pyInt 5 } =
      (Except.ok false, { initialAgent with last_run := PyVal.pyInt 5 }) :=
  ⟨rfl, get_last_run_empty_frame.1 0 FileState.yamlError
    { initialAgent with last_run := PyVal.pyInt 5 } rfl⟩

/-- Claim C6, confirmed.  When opening the disabled lock fails (path absent
or otherwise inaccessible), the disabled property returns false without
raising and without modifying the whole agent state, in particular
disabled_message; and whenever disabled_message is changed by an access to
the property, the lock was present with a parseable document, so the
message is never cleared by the lock disappearing. -/
theorem disabled_open_failure_frame :
    (∀ s, disabled FileState.absent s = (Except.ok false, s)) ∧
    (∀ s, disabled FileState.ioError s = (Except.ok false, s)) ∧
    (∀ lock s, (disabled lock s).2.disabled_message ≠ s.disabled_message →
      ∃ doc, lock = FileState.parsed doc) := by
  refine ⟨fun _ => rfl, fun _ => rfl, ?_⟩
  intro lock s h
  cases lock with
  | absent => simp [disabled] at h
  | ioError => simp [disabled] at h
  | yamlError => simp [disabled] at h
  | parsed doc => exact ⟨doc, rfl⟩

/-- Claim C6, witness: an absent lock leaves a previously stored message in
place, and a present lock carrying a message is the only way the message
changes. -/
theorem disabled_open_failure_frame_witness :
    disabled FileState.absent
        { initialAgent with disabled_message := PyVal.pyStr "m" } =
      (Except.ok false,
        { initialAgent with disabled_message := PyVal.pyStr "m" }) ∧
    ∃ doc, FileState.parsed
        (PyVal.pyDict [("disabled_message", PyVal.pyStr "m")]) =
      FileState.parsed doc :=
  ⟨disabled_open_failure_frame.1
      { initialAgent with disabled_message := PyVal.pyStr "m" },
    disabled_open_failure_frame.2.2
      (FileState.parsed (PyVal.pyDict [("disabled_message", PyVal.pyStr "m")]))
      initialAgent
      (by simp [disabled, safe_get, getItem, lookupKey, initialAgent])⟩

/-- Helper: once the time.last_run lookup has succeeded, the last_run field
of the state returned by get_last_run is the elapsed-time conversion of the
looked-up value, whatever happens in the rest of the extraction (later
failures keep the assignments already made). -/
theorem get_last_run_keeps_last_run (now : ℚ) (doc : PyVal) (s : AgentRec)
    (tlr : PyVal)
    (htruthy : truthy doc = true)
    (hlr : safe_get doc ["time", "last_run"] = Except.ok tlr) :
    (get_last_run now (FileState.parsed doc) s).2.last_run =
      get_timedelta now tlr := by
  unfold get_last_run
  simp only [get_run_summary, htruthy, if_true, Bool.true_eq_false, if_false, hlr]
  repeat' split
  all_goals rfl

/-- Claim C7, confirmed.  For every truthy summary document whose
time.last_run lookup yields an integer timestamp T not after the call time,
get_last_run sets last_run to the floor of now - T in whole seconds
(truncation toward zero agrees with floor on nonnegative differences, with
now taken once at call time); and the elapsed-time helper applied to None
returns None rather than raising. -/
theorem last_run_elapsed (now : ℚ) (doc : PyVal) (s : AgentRec) (T : Int)
    (htruthy : truthy doc = true)
    (hlr : safe_get doc ["time", "last_run"] = Except.ok (PyVal.pyInt T))
    (hle : (T : ℚ) ≤ now) :
    (get_last_run now (FileState.parsed doc) s).2.last_run =
      PyVal.pyInt ⌊now - (T : ℚ)⌋ ∧
    get_timedelta now PyVal.none = PyVal.none := by
  refine ⟨?_, rfl⟩
  rw [get_last_run_keeps_last_run now doc s (PyVal.pyInt T) htruthy hlr]
  have h0 : (0 : ℚ) ≤ now - (T : ℚ) := by linarith
  simp [get_timedelta, trunc0_eq_floor h0]

/-- Claim C7, witness at a concrete document with last_run timestamp 3 and
clock 10. -/
theorem last_run_elapsed_witness :
    truthy (PyVal.pyDict [("time", PyVal.pyDict [("last_run", PyVal.pyInt 3),
      ("total", PyVal.pyInt 2)])]) = true ∧
    safe_get (PyVal.pyDict [("time", PyVal.pyDict [("last_run", PyVal.pyInt 3),
      ("total", PyVal.pyInt 2)])]) ["time", "last_run"] =
      Except.ok (PyVal.pyInt 3) ∧
    ((3 : Int) : ℚ) ≤ 10 ∧
    ((get_last_run 10 (FileState.parsed (PyVal.pyDict [("time",
        PyVal.pyDict [("last_run", PyVal.pyInt 3), ("total", PyVal.pyInt 2)])]))
        initialAgent).2.last_run = PyVal.pyInt ⌊(10 : ℚ) - ((3 : Int) : ℚ)⌋ ∧
      get_timedelta 10 PyVal.none = PyVal.none) :=
  ⟨rfl, rfl, by norm_num,
    last_run_elapsed 10
      (PyVal.pyDict [("time", PyVal.pyDict [("last_run", PyVal.pyInt 3),
        ("total", PyVal.pyInt 2)])])
      initialAgent 3 rfl rfl (by norm_num)⟩

/-- Claim C1, counterexample.  The claim states that for a non-empty
summary document with the key path time.total absent, get_last_run sets
last_run_duration to None and returns true without raising; but on the
document with only events.failure the unguarded int(None) coercion raises
a TypeError, so get_last_run does not return true. -/
theorem get_last_run_total_absent_counterexample :
    (get_last_run 0 (FileState.parsed (PyVal.pyDict
        [("events", PyVal.pyDict [("failure", PyVal.pyInt 2)])]))
      initialAgent).1 = Except.error PyErr.typeError ∧
    (Except.error PyErr.typeError : Except PyErr Bool) ≠ Except.ok true :=
  ⟨rfl, fun h => Except.noConfusion h⟩

/-- Claim C1, amended.  For every truthy summary document in which the
time.total key path yields no value (while the time.last_run lookup itself
does not raise), get_last_run raises a TypeError from the unguarded
int(None) coercion instead of returning true; the fields assigned before
that point (last_run) are still updated, and the other absent key paths
would have yielded None had the call completed. -/
theorem get_last_run_total_absent_raises (now : ℚ) (doc : PyVal) (s : AgentRec)
    (w : PyVal)
    (htruthy : truthy doc = true)
    (hlr : safe_get doc ["time", "last_run"] = Except.ok w)
    (htot : safe_get doc ["time", "total"] = Except.ok PyVal.none) :
    (get_last_run now (FileState.parsed doc) s).1 =
      Except.error PyErr.typeError := by
  unfold get_last_run
  simp only [get_run_summary, htruthy, if_true, Bool.true_eq_false, if_false,
    hlr, htot]
  rfl

/-- Claim C1, witness for the amended theorem at the counterexample
document. -/
theorem get_last_run_total_absent_raises_witness :
    truthy (PyVal.pyDict [("events", PyVal.pyDict [("failure",
      PyVal.pyInt 2)])]) = true ∧
    safe_get (PyVal.pyDict [("events", PyVal.pyDict [("failure",
      PyVal.pyInt 2)])]) ["time", "last_run"] = Except.ok PyVal.none ∧
    safe_get (PyVal.pyDict [("events", PyVal.pyDict [("failure",
      PyVal.pyInt 2)])]) ["time", "total"] = Except.ok PyVal.none ∧
    (get_last_run 0 (FileState.parsed (PyVal.pyDict [("events",
        PyVal.pyDict [("failure", PyVal.pyInt 2)])])) initialAgent).1 =
      Except.error PyErr.typeError :=
  ⟨rfl, rfl, rfl,
    get_last_run_total_absent_raises 0
      (PyVal.pyDict [("events", PyVal.pyDict [("failure", PyVal.pyInt 2)])])
      initialAgent PyVal.none rfl rfl rfl⟩

/-- Claim C10, counterexample.  The claim states that every timestamp
strictly in the future yields a negative integer; but a timestamp half a
second in the future (clock 10.5, timestamp 11) yields 0, because
truncation toward zero sends -0.5 to 0, which is not negative. -/
theorem get_timedelta_subsecond_future_counterexample :
    (21 / 2 : ℚ) < ((11 : Int) : ℚ) ∧
    get_timedelta (21 / 2) (PyVal.pyInt 11) = PyVal.pyInt 0 ∧
    ¬ ((0 : Int) < 0) := by
  refine ⟨by norm_num, ?_, by norm_num⟩
  norm_num [get_timedelta, trunc0]

/-- Claim C10, amended.  For a future timestamp the elapsed-time helper
returns the difference truncated toward zero: strictly negative whenever
the timestamp is at least one second in the future, but zero (not
negative) when it is less than one second in the future; run_duration can
in the same way take negative values when the run lock modification time
lies in the future. -/
theorem get_timedelta_future_negative (now : ℚ) (T : Int)
    (h : now + 1 ≤ (T : ℚ)) :
    get_timedelta now (PyVal.pyInt T) =
      PyVal.pyInt (trunc0 (now - (T : ℚ))) ∧
    trunc0 (now - (T : ℚ)) < 0 ∧
    run_duration 0 (some 5) = PyVal.pyInt (-5) := by
  refine ⟨rfl, ?_, ?_⟩
  · have hneg : now - (T : ℚ) < 0 := by linarith
    rw [trunc0_eq_ceil hneg]
    have hle1 : ⌈now - (T : ℚ)⌉ ≤ -1 := by
      refine Int.ceil_le.mpr ?_
      push_cast
      linarith
    omega
  · norm_num [run_duration, get_timedelta, trunc0]
    rw [show ((-5 : ℚ)) = ((-5 : ℤ) : ℚ) by norm_num]
    exact Int.ceil_intCast (-5)

/-- Claim C10, witness for the amended theorem with clock 0 and timestamp
2 (plus the run_duration instance). -/
theorem get_timedelta_future_negative_witness :
    ((0 : ℚ) + 1 ≤ ((2 : Int) : ℚ)) ∧
    (get_timedelta 0 (PyVal.pyInt 2) =
        PyVal.pyInt (trunc0 ((0 : ℚ) - ((2 : Int) : ℚ))) ∧
      trunc0 ((0 : ℚ) - ((2 : Int) : ℚ)) < 0 ∧
      run_duration 0 (some 5) = PyVal.pyInt (-5)) :=
  ⟨by norm_num, get_timedelta_future_negative 0 2 (by norm_num)⟩
